import Mathlib

/-!
Verification development for the PlantUML test-case generator repository.

The embedding covers, from the source:
* the renderer error classification in `render_plantuml_from_text`
  (`plantuml_service.py` excerpt in ERROR_HANDLING_IMPROVEMENTS.md);
* the bounded retry loop of `process_csv_and_generate` (`csv_service.py`
  excerpt in ERROR_HANDLING_IMPROVEMENTS.md);
* the repair adapter `_fix_invalid_plantuml_code` (behaviour modelled from
  the specification, its body is not among the sources);
* the test-case preservation step of `enrich_test_cases_with_ai`;
* the frontend `ApiService` guards (`frontend/src/services/api.js`);
* the frontend app-state reducer (`frontend/src/context/AppContext.jsx`).
-/

set_option autoImplicit false

namespace PlantUml

/-- Result of running the external PlantUML subprocess once:
`subprocess.run(cmd, capture_output=True, ...)` yields a return code, the
captured stdout/stderr diagnostics, and (on success) the image path. -/
structure ProcResult where
  returncode : Nat
  diagnostic : String
  imagePath : String
deriving DecidableEq, Repr

/-- Exceptions raised by `render_plantuml_from_text`:
`PlantUMLSyntaxError` for exit code 200, a generic exception otherwise. -/
inductive RenderExc where
  | plantUMLSyntaxError (msg : String)
  | otherError (msg : String)
deriving DecidableEq, Repr

/-- Error classification in `render_plantuml_from_text` (plantuml_service.py):

```python
result = subprocess.run(cmd, capture_output=True, ...)
if result.returncode != 0:
    if result.returncode == 200:
        raise PlantUMLSyntaxError(f"Invalid PlantUML syntax. {error_details}")
    else:
        raise Exception(error_details)
```

The subprocess outcome is passed in as `r`. -/
def render_plantuml_from_text (r : ProcResult) : Except RenderExc String :=
  if r.returncode ≠ 0 then
    if r.returncode = 200 then
      Except.error (RenderExc.plantUMLSyntaxError ("Invalid PlantUML syntax. " ++ r.diagnostic))
    else
      Except.error (RenderExc.otherError r.diagnostic)
  else
    Except.ok r.imagePath

/-- Terminal outcome of one retry session. -/
inductive SessionResult where
  | succeeded (source imagePath : String)
  | fatalOther (diag : String)
  | exhausted (diag : String)
deriving DecidableEq, Repr

/-- Observable trace of one retry session: its terminal outcome, the number
of render invocations, the number of repair invocations, and the diagnostic
produced by each failed render attempt in order. -/
structure SessionTrace where
  result : SessionResult
  renders : Nat
  repairs : Nat
  history : List String
deriving DecidableEq, Repr

/-- The retry loop of `process_csv_and_generate` (csv_service.py):

```python
max_retries = 2
while retry_count <= max_retries:
    try:
        img_path = render_plantuml_from_text(plantuml_code, ...)
        break  # Success
    except PlantUMLSyntaxError as syntax_error:
        if retry_count < max_retries:
            plantuml_code = _fix_invalid_plantuml_code(plantuml_code, str(syntax_error))
            retry_count += 1
        else:
            raise  # Max retries reached
```

`env n src` is the subprocess outcome of the `n`-th render invocation on
source `src` (the external world); `fix` is `_fix_invalid_plantuml_code`.
`remaining` is `max_retries - retry_count`, `n` is `retry_count`.  A generic
(non-syntax) exception is not caught by the loop and propagates at once. -/
def retry_go (env : Nat → String → ProcResult) (fix : String → String → String) :
    Nat → Nat → String → List String → SessionTrace
  | remaining, n, src, hist =>
    match render_plantuml_from_text (env n src) with
    | Except.ok path =>
        { result := SessionResult.succeeded src path
          renders := n + 1, repairs := n, history := hist }
    | Except.error (RenderExc.otherError d) =>
        { result := SessionResult.fatalOther d
          renders := n + 1, repairs := n, history := hist ++ [d] }
    | Except.error (RenderExc.plantUMLSyntaxError d) =>
        match remaining with
        | 0 =>
            { result := SessionResult.exhausted d
              renders := n + 1, repairs := n, history := hist ++ [d] }
        | Nat.succ r =>
            retry_go env fix r (n + 1) (fix src d) (hist ++ [d])

/-- Source: `max_retries = 2  # Total of 3 attempts (initial + 2 retries)` in
csv_service.py. -/
def max_retries : Nat := 2

/-- One retry session of `process_csv_and_generate` with a configurable
retry ceiling `k`. -/
def retry_session (env : Nat → String → ProcResult) (fix : String → String → String)
    (k : Nat) (source : String) : SessionTrace :=
  retry_go env fix k 0 source []

/-- The retry session as shipped: ceiling `max_retries = 2`. -/
def process_csv_and_generate (env : Nat → String → ProcResult)
    (fix : String → String → String) (source : String) : SessionTrace :=
  retry_session env fix max_retries source

/-- Outcome of the external generative call used by the repair adapter:
either it produces a text, or the call itself fails (raises). -/
inductive AgentReply where
  | ok (text : String)
  | failed
deriving DecidableEq, Repr

/-- The minimal, always well-formed fallback diagram substituted when
fixing fails. -/
def fallbackDiagram : String := "@startuml\n@enduml"

/-- A trivial well-formedness check on PlantUML source: the text carries
the start and end delimiters. -/
def plantumlWellFormed (s : String) : Bool :=
  (s.data.take 9 == "@startuml".data) && (s.data.drop (s.data.length - 7) == "@enduml".data)

/-- Modelled from the spec: the body of `_fix_invalid_plantuml_code`
(csv_service.py) is not among the provided sources; ERROR_HANDLING_IMPROVEMENTS.md
only describes it ("Has fallback to minimal valid diagram if fixing fails").
Per the spec, the adapter delegates to an external generative call with the
invalid source and the diagnostic; if that call fails or returns empty or
unusable output, it substitutes the minimal always-valid fallback diagram
instead of propagating the failure. `agent` is the external call. -/
def fix_invalid_plantuml_code (agent : String → String → AgentReply)
    (invalidSource diagnostic : String) : String :=
  match agent invalidSource diagnostic with
  | AgentReply.ok t => if t.trim = "" then fallbackDiagram else t
  | AgentReply.failed => fallbackDiagram

/-! ### Test-case preservation (`enrich_test_cases_with_ai`, csv_service.py) -/

/-- A test-case record: a stable `id` plus its remaining payload. -/
structure Record where
  id : String
  data : String
deriving DecidableEq, Repr

/-- The ids of a list of records. -/
def ids (l : List Record) : List String := l.map (fun r => r.id)

/-- The validation step of `enrich_test_cases_with_ai`:

```python
original_ids = {tc.get('id') for tc in test_cases}
result_ids = {tc.get('id') for tc in result}
missing_ids = original_ids - result_ids
if missing_ids:
    missing_cases = [tc for tc in test_cases if tc.get('id') in missing_ids]
    result.extend(missing_cases)
```

`original` is `test_cases`, `transformed` is `result`; an original record is
missing exactly when no transformed record carries its id, and the missing
originals are appended verbatim, in their original order. -/
def preserve (original transformed : List Record) : List Record :=
  transformed ++ original.filter (fun tc => !(transformed.any (fun r => r.id == tc.id)))

/-! ### Frontend `ApiService` (frontend/src/services/api.js) -/

/-- The error message thrown by the key-guarded `ApiService` methods. -/
def apiKeyRequiredMsg : String :=
  "OpenAI API key is required. Please set your API key first."

/-- The parts of a `fetch` response the service inspects: `response.ok`,
`response.status`, the parsed error body's `detail` field (when present),
and the parsed success body. -/
structure HttpResponse where
  ok : Bool
  status : Nat
  detail : Option String
  body : String
deriving DecidableEq, Repr

/-- The shared response handling of every `ApiService` method:

```javascript
if (!response.ok) {
  const errorData = await response.json().catch(() => ({}));
  throw new Error(errorData.detail || `HTTP error! status: ${response.status}`);
}
return await response.json();
``` -/
def handleResponse (r : HttpResponse) : Except String String :=
  if r.ok then Except.ok r.body
  else Except.error (r.detail.getD ("HTTP error! status: " ++ toString r.status))

/-- In JavaScript `!this.apiKey` holds when the key is `null` (or the empty
string, both falsy). -/
def apiKeyMissing : Option String → Bool
  | none => true
  | some k => k == ""

/-- Method `ApiService.uploadFile`: posts the form data to `/upload-cmdb/` or
`/upload-csv/` according to `fileType`, with no API-key precondition.
`fetch` maps the endpoint to the network response. -/
def uploadFile (apiKey : Option String) (fileType : String)
    (fetch : String → HttpResponse) : Except String String :=
  let endpoint := if fileType == "cmdb" then "/upload-cmdb/" else "/upload-csv/"
  handleResponse (fetch endpoint)

/-- Method `ApiService.generateDiagram`: throws when `!this.apiKey`, otherwise posts
the test cases to `/generate-diagram/`. -/
def generateDiagram (apiKey : Option String) (testCases : String)
    (fetch : String → HttpResponse) : Except String String :=
  if apiKeyMissing apiKey then Except.error apiKeyRequiredMsg
  else handleResponse (fetch "/generate-diagram/")

/-- Method `ApiService.chatWithPlantUML`: throws when `!this.apiKey`, otherwise posts
the code and message to `/chat-plantuml/`. -/
def chatWithPlantUML (apiKey : Option String) (plantUMLCode message : String)
    (fetch : String → HttpResponse) : Except String String :=
  if apiKeyMissing apiKey then Except.error apiKeyRequiredMsg
  else handleResponse (fetch "/chat-plantuml/")

/-! ### Frontend app-state reducer (frontend/src/context/AppContext.jsx) -/

/-- A plain JavaScript object as a key/value list. -/
abbrev JsObject := List (String × String)

/-- Spread merge `{ ...o, ...u }`: keys of `u` override keys of `o`; the surviving keys
of `o` come first, then the keys of `u`. -/
def objMerge (o u : JsObject) : JsObject :=
  o.filter (fun kv => !(u.any (fun kv2 => kv2.1 == kv.1))) ++ u

/-- Field access `tc.id`: the value at key `"id"`, `undefined` (`none`) when absent. -/
def tcId (tc : JsObject) : Option String :=
  (tc.find? (fun kv => kv.1 == "id")).map (fun kv => kv.2)

/-- The app state held by `AppContext`. -/
structure AppState where
  currentStep : String
  apiKey : Option String
  fileType : Option String
  uploadedFile : Option String
  testCases : List JsObject
  cmdbItems : List JsObject
  plantUMLCode : String
  plantUMLImage : String
  chatHistory : List String
  loading : Bool
  error : Option String
deriving DecidableEq, Repr

/-- The `initialState` object in AppContext.jsx. -/
def initialState : AppState :=
  { currentStep := "landing", apiKey := none, fileType := none,
    uploadedFile := none, testCases := [], cmdbItems := [],
    plantUMLCode := "", plantUMLImage := "", chatHistory := [],
    loading := false, error := none }

/-- The dispatched actions (`ACTIONS` in context/actions.js). -/
inductive Action where
  | setLoading (b : Bool)
  | setError (e : Option String)
  | clearError
  | setStep (s : String)
  | setApiKey (k : Option String)
  | setFileType (f : Option String)
  | setUploadedFile (f : Option String)
  | setTestCases (l : List JsObject)
  | setCmdbItems (l : List JsObject)
  | updateTestCase (id : String) (updates : JsObject)
  | updateCmdbItem (id : String) (updates : JsObject)
  | setPlantUMLData (code image : String)
  | addChatMessage (m : String)
  | resetState
deriving Repr

/-- The `appReducer` function in AppContext.jsx.  `UPDATE_TEST_CASE` maps over
`state.testCases`, replacing the test case whose `id` equals
`action.payload.id` by `{ ...tc, ...action.payload.updates }`. -/
def appReducer (state : AppState) (action : Action) : AppState :=
  match action with
  | Action.setLoading b => { state with loading := b }
  | Action.setError e => { state with error := e, loading := false }
  | Action.clearError => { state with error := none }
  | Action.setStep s => { state with currentStep := s }
  | Action.setApiKey k => { state with apiKey := k }
  | Action.setFileType f => { state with fileType := f }
  | Action.setUploadedFile f => { state with uploadedFile := f }
  | Action.setTestCases l => { state with testCases := l }
  | Action.setCmdbItems l => { state with cmdbItems := l }
  | Action.updateTestCase pid updates =>
      { state with testCases :=
          state.testCases.map (fun tc =>
            if tcId tc = some pid then objMerge tc updates else tc) }
  | Action.updateCmdbItem pid updates =>
      { state with cmdbItems :=
          state.cmdbItems.map (fun item =>
            if tcId item = some pid then objMerge item updates else item) }
  | Action.setPlantUMLData code image =>
      { state with plantUMLCode := code, plantUMLImage := image }
  | Action.addChatMessage m => { state with chatHistory := state.chatHistory ++ [m] }
  | Action.resetState => initialState

/-! ### Bookkeeping definitions and concrete example inputs -/

/-- The message of the `PlantUMLSyntaxError` raised at render attempt `n`
on source `src`. -/
def diagAt (env : Nat → String → ProcResult) (n : Nat) (src : String) : String :=
  "Invalid PlantUML syntax. " ++ (env n src).diagnostic

/-- The source the retry loop holds at attempt `n + i`, starting from state
(attempt `n`, source `src`): each attempt that fails with exit code 200
replaces the source by the repaired one. -/
def srcFrom (env : Nat → String → ProcResult) (fix : String → String → String) :
    Nat → String → Nat → String
  | _, src, 0 => src
  | n, src, Nat.succ i =>
      if (env n src).returncode = 200 then
        srcFrom env fix (n + 1) (fix src (diagAt env n src)) i
      else
        srcFrom env fix (n + 1) src i

/-- An external world in which every render attempt exits with code 200 and
a distinct diagnostic per attempt. -/
def envInvalidA : Nat → String → ProcResult := fun n _ =>
  { returncode := 200, diagnostic := "syntax error " ++ toString n, imagePath := "" }

/-- Like `envInvalidA` but with a different diagnostic on the first attempt
and the same diagnostic on the last. -/
def envInvalidB : Nat → String → ProcResult := fun n _ =>
  { returncode := 200,
    diagnostic := if n == 0 then "another error" else "syntax error " ++ toString n,
    imagePath := "" }

/-- An external world in which every render attempt exits with code 1. -/
def envOtherFail : Nat → String → ProcResult := fun _ _ =>
  { returncode := 1, diagnostic := "java not found", imagePath := "" }

/-- An external world in which the first render attempt exits with code 200
and every later one succeeds. -/
def envFirstInvalidThenOk : Nat → String → ProcResult := fun n _ =>
  if n = 0 then { returncode := 200, diagnostic := "missing @enduml", imagePath := "" }
  else { returncode := 0, diagnostic := "", imagePath := "/static/e2e_test_diagram.png" }

/-- A repair agent that returns the source unchanged. -/
def fixKeep : String → String → String := fun s _ => s

/-- A repair agent that always returns one fixed corrected source. -/
def fixToCorrected : String → String → String := fun _ _ => "@startuml\nA -> B\n@enduml"

/-- A generative call that always fails. -/
def agentDown : String → String → AgentReply := fun _ _ => AgentReply.failed

/-- Example records for the preservation guard. -/
def recA : Record := { id := "A", data := "alpha" }

/-- Example record with id B. -/
def recB : Record := { id := "B", data := "beta" }

/-- Example record with id C. -/
def recC : Record := { id := "C", data := "gamma" }

/-- Example record with id D. -/
def recD : Record := { id := "D", data := "delta" }

/-- Example original list with ids A, B, C. -/
def origEx : List Record := [recA, recB, recC]

/-- Example transformed list with ids B, C, D. -/
def transEx : List Record := [recB, recC, recD]

/-- Example test case TC1. -/
def tc1 : JsObject := [("id", "TC1"), ("name", "login")]

/-- Example test case TC2. -/
def tc2 : JsObject := [("id", "TC2"), ("name", "logout")]

/-- Example app state holding the two example test cases. -/
def sEx : AppState :=
  { initialState with currentStep := "edit", testCases := [tc1, tc2] }

/-! ### Step lemmas for the retry loop -/

/-- One unfolding of the loop when the render attempt succeeds: the loop
breaks at once, whatever retry budget remains. -/
theorem retry_go_ok (env : Nat → String → ProcResult) (fix : String → String → String)
    (r n : Nat) (src : String) (hist : List String)
    (h : (env n src).returncode = 0) :
    retry_go env fix r n src hist =
      { result := SessionResult.succeeded src (env n src).imagePath
        renders := n + 1, repairs := n, history := hist } := by
  rw [retry_go]
  simp [render_plantuml_from_text, h]

/-- One unfolding of the loop when the render attempt fails with an exit
code other than 0 and 200: the generic exception is not caught, the loop
ends at once with no repair. -/
theorem retry_go_other (env : Nat → String → ProcResult) (fix : String → String → String)
    (r n : Nat) (src : String) (hist : List String)
    (hnz : (env n src).returncode ≠ 0) (hns : (env n src).returncode ≠ 200) :
    retry_go env fix r n src hist =
      { result := SessionResult.fatalOther (env n src).diagnostic
        renders := n + 1, repairs := n, history := hist ++ [(env n src).diagnostic] } := by
  rw [retry_go]
  simp [render_plantuml_from_text, hnz, hns]

/-- One unfolding of the loop when the render attempt fails with exit code
200 and the retry budget is spent: the last `PlantUMLSyntaxError` is
re-raised. -/
theorem retry_go_exhaust (env : Nat → String → ProcResult) (fix : String → String → String)
    (n : Nat) (src : String) (hist : List String)
    (h : (env n src).returncode = 200) :
    retry_go env fix 0 n src hist =
      { result := SessionResult.exhausted (diagAt env n src)
        renders := n + 1, repairs := n, history := hist ++ [diagAt env n src] } := by
  rw [retry_go]
  simp [render_plantuml_from_text, h, diagAt]

/-- One unfolding of the loop when the render attempt fails with exit code
200 and budget remains: the source is repaired and the loop continues. -/
theorem retry_go_step (env : Nat → String → ProcResult) (fix : String → String → String)
    (r n : Nat) (src : String) (hist : List String)
    (h : (env n src).returncode = 200) :
    retry_go env fix (r + 1) n src hist =
      retry_go env fix r (n + 1) (fix src (diagAt env n src)) (hist ++ [diagAt env n src]) := by
  rw [retry_go]
  simp [render_plantuml_from_text, h, diagAt]

/-- The render-invocation count of the loop started at attempt `n` with
budget `r` is at most `n + r + 1`. -/
theorem retry_go_renders_le (env : Nat → String → ProcResult) (fix : String → String → String) :
    ∀ (r n : Nat) (src : String) (hist : List String),
      (retry_go env fix r n src hist).renders ≤ n + r + 1 := by
  intro r
  induction r with
  | zero =>
    intro n src hist
    rcases hz : (env n src).returncode with _ | c
    · rw [retry_go_ok env fix 0 n src hist hz]
    · by_cases h200 : c + 1 = 200
      · rw [retry_go_exhaust env fix n src hist (by omega)]
      · rw [retry_go_other env fix 0 n src hist (by omega) (by omega)]
  | succ r ih =>
    intro n src hist
    rcases hz : (env n src).returncode with _ | c
    · rw [retry_go_ok env fix (r + 1) n src hist hz]
      simp
    · by_cases h200 : c + 1 = 200
      · rw [retry_go_step env fix r n src hist (by omega)]
        have := ih (n + 1) (fix src (diagAt env n src)) (hist ++ [diagAt env n src])
        omega
      · rw [retry_go_other env fix (r + 1) n src hist (by omega) (by omega)]
        simp

/-- C1: for every configuration `maxRetries = k` and every sequence of render
outcomes, one retry session of the retry loop in `process_csv_and_generate`
invokes the renderer at most `k + 1` times; with the shipped default
`max_retries = 2` that is at most 3 render attempts per session. -/
theorem claim_C1_retry_render_bound :
    (∀ (env : Nat → String → ProcResult) (fix : String → String → String)
        (k : Nat) (src : String),
        (retry_session env fix k src).renders ≤ k + 1) ∧
    (∀ (env : Nat → String → ProcResult) (fix : String → String → String)
        (src : String),
        (process_csv_and_generate env fix src).renders ≤ 3) := by
  constructor
  · intro env fix k src
    have := retry_go_renders_le env fix k 0 src []
    simpa [retry_session] using this
  · intro env fix src
    have := retry_go_renders_le env fix 2 0 src []
    simpa [process_csv_and_generate, retry_session, max_retries] using this

/-- C4: the classification in `render_plantuml_from_text` is total on
non-zero exit statuses: exit status 200 raises `PlantUMLSyntaxError`, every
other non-zero exit status raises the generic exception, and a zero exit
status is never classified as a failure. -/
theorem claim_C4_classify_total (r : ProcResult) :
    (r.returncode = 200 →
      render_plantuml_from_text r
        = Except.error (RenderExc.plantUMLSyntaxError
            ("Invalid PlantUML syntax. " ++ r.diagnostic))) ∧
    (r.returncode ≠ 0 → r.returncode ≠ 200 →
      render_plantuml_from_text r = Except.error (RenderExc.otherError r.diagnostic)) ∧
    (r.returncode = 0 → render_plantuml_from_text r = Except.ok r.imagePath) := by
  refine ⟨fun h => ?_, fun hnz hns => ?_, fun h => ?_⟩ <;>
    simp [render_plantuml_from_text, *]

/-- Witness for C4 at the three concrete exit statuses 200, 127 and 0. -/
theorem claim_C4_witness :
    render_plantuml_from_text { returncode := 200, diagnostic := "bad arrow", imagePath := "" }
        = Except.error (RenderExc.plantUMLSyntaxError ("Invalid PlantUML syntax. " ++ "bad arrow")) ∧
    render_plantuml_from_text { returncode := 127, diagnostic := "no java", imagePath := "" }
        = Except.error (RenderExc.otherError "no java") ∧
    render_plantuml_from_text { returncode := 0, diagnostic := "", imagePath := "img.png" }
        = Except.ok "img.png" :=
  ⟨(claim_C4_classify_total _).1 rfl,
   (claim_C4_classify_total _).2.1 (by decide) (by decide),
   (claim_C4_classify_total _).2.2 rfl⟩

/-- The source at offset zero is the starting source. -/
theorem srcFrom_zero (env : Nat → String → ProcResult) (fix : String → String → String)
    (n : Nat) (src : String) : srcFrom env fix n src 0 = src := rfl

/-- Unfolding of `srcFrom` across an attempt that fails with exit code 200. -/
theorem srcFrom_succ_200 (env : Nat → String → ProcResult) (fix : String → String → String)
    (n : Nat) (src : String) (i : Nat) (h : (env n src).returncode = 200) :
    srcFrom env fix n src (i + 1)
      = srcFrom env fix (n + 1) (fix src (diagAt env n src)) i := by
  rw [srcFrom]
  simp [h]

/-- When every render attempt exits with code 200, the loop started at
attempt `n` with budget `r` performs `r + 1` more renders and `r` more
repairs, accumulates one diagnostic per attempt, and ends exhausted with
the last accumulated diagnostic. -/
theorem retry_go_all_invalid (env : Nat → String → ProcResult)
    (fix : String → String → String)
    (hall : ∀ n src, (env n src).returncode = 200) :
    ∀ (r n : Nat) (src : String) (hist : List String),
      (retry_go env fix r n src hist).renders = n + r + 1 ∧
      (retry_go env fix r n src hist).repairs = n + r ∧
      (retry_go env fix r n src hist).history.length = hist.length + r + 1 ∧
      ∃ d, (retry_go env fix r n src hist).history.getLast? = some d ∧
           (retry_go env fix r n src hist).result = SessionResult.exhausted d := by
  intro r
  induction r with
  | zero =>
    intro n src hist
    rw [retry_go_exhaust env fix n src hist (hall n src)]
    exact ⟨rfl, rfl, by simp, diagAt env n src, by simp, rfl⟩
  | succ r ih =>
    intro n src hist
    rw [retry_go_step env fix r n src hist (hall n src)]
    obtain ⟨h1, h2, h3, d, h4, h5⟩ :=
      ih (n + 1) (fix src (diagAt env n src)) (hist ++ [diagAt env n src])
    refine ⟨by omega, by omega, ?_, d, h4, h5⟩
    simp only [List.length_append, List.length_cons, List.length_nil] at h3
    omega

/-- C2 (amended): if every render attempt returns a failure with exit status
200, the session ends exhausted after exactly `k + 1` render attempts and
`k` repair attempts, with a diagnostic history of length `k + 1` accumulated
along the way; the surfaced terminal error carries the last diagnostic of
that history (the code re-raises the final `PlantUMLSyntaxError`), not the
full history. -/
theorem claim_C2_amended_exhaustion (env : Nat → String → ProcResult)
    (fix : String → String → String) (k : Nat) (src : String)
    (hall : ∀ n s, (env n s).returncode = 200) :
    (retry_session env fix k src).renders = k + 1 ∧
    (retry_session env fix k src).repairs = k ∧
    (retry_session env fix k src).history.length = k + 1 ∧
    ∃ d, (retry_session env fix k src).history.getLast? = some d ∧
         (retry_session env fix k src).result = SessionResult.exhausted d := by
  have h := retry_go_all_invalid env fix hall k 0 src []
  simpa [retry_session] using h

/-- Witness for the amended C2: with `maxRetries = 2` and every attempt
failing with exit status 200, the session makes 3 renders, 2 repairs and a
history of length 3. -/
theorem claim_C2_amended_witness :
    (retry_session envInvalidA fixKeep 2 "@startuml").renders = 3 ∧
    (retry_session envInvalidA fixKeep 2 "@startuml").repairs = 2 ∧
    (retry_session envInvalidA fixKeep 2 "@startuml").history.length = 3 := by
  have h := claim_C2_amended_exhaustion envInvalidA fixKeep 2 "@startuml" (fun n s => rfl)
  exact ⟨h.1, h.2.1, h.2.2.1⟩

/-- C2 counterexample: two sessions whose three render attempts all fail
with exit status 200 but with different diagnostic histories surface the
very same terminal error, so the surfaced terminal error does not carry the
full diagnostic history — only the last diagnostic. -/
theorem claim_C2_counterexample :
    (process_csv_and_generate envInvalidA fixKeep "@startuml").history
        ≠ (process_csv_and_generate envInvalidB fixKeep "@startuml").history ∧
    (process_csv_and_generate envInvalidA fixKeep "@startuml").history.length = 3 ∧
    (process_csv_and_generate envInvalidB fixKeep "@startuml").history.length = 3 ∧
    (process_csv_and_generate envInvalidA fixKeep "@startuml").result
        = (process_csv_and_generate envInvalidB fixKeep "@startuml").result ∧
    (process_csv_and_generate envInvalidA fixKeep "@startuml").result
        = SessionResult.exhausted ("Invalid PlantUML syntax. " ++ "syntax error 2") := by
  refine ⟨by decide, by decide, by decide, by decide, by decide⟩

/-- If the loop sits at attempt `n` and the next `i` attempts fail with exit
code 200 while attempt `n + i` fails with another non-zero code, the loop
ends fatal at attempt `n + i` with no repair and no render beyond it. -/
theorem retry_go_other_reach (env : Nat → String → ProcResult)
    (fix : String → String → String) :
    ∀ (i r n : Nat) (src : String) (hist : List String),
      i ≤ r →
      (∀ j, j < i → (env (n + j) (srcFrom env fix n src j)).returncode = 200) →
      (env (n + i) (srcFrom env fix n src i)).returncode ≠ 0 →
      (env (n + i) (srcFrom env fix n src i)).returncode ≠ 200 →
      (retry_go env fix r n src hist).result
          = SessionResult.fatalOther (env (n + i) (srcFrom env fix n src i)).diagnostic ∧
      (retry_go env fix r n src hist).renders = n + i + 1 ∧
      (retry_go env fix r n src hist).repairs = n + i := by
  intro i
  induction i with
  | zero =>
    intro r n src hist _ _ hnz hns
    rw [retry_go_other env fix r n src hist (by simpa [srcFrom] using hnz)
        (by simpa [srcFrom] using hns)]
    simp [srcFrom]
  | succ i ih =>
    intro r n src hist hir hpre hnz hns
    have h0 : (env n src).returncode = 200 := by
      have := hpre 0 (Nat.succ_pos i)
      simpa [srcFrom] using this
    cases r with
    | zero => omega
    | succ r =>
      rw [retry_go_step env fix r n src hist h0]
      have hsh : ∀ m, srcFrom env fix n src (m + 1)
          = srcFrom env fix (n + 1) (fix src (diagAt env n src)) m := fun m =>
        srcFrom_succ_200 env fix n src m h0
      have hpre2 : ∀ j, j < i →
          (env (n + 1 + j)
            (srcFrom env fix (n + 1) (fix src (diagAt env n src)) j)).returncode = 200 := by
        intro j hj
        have h := hpre (j + 1) (by omega)
        rw [hsh j] at h
        have heq : n + (j + 1) = n + 1 + j := by omega
        rw [heq] at h
        exact h
      have heqi : n + (i + 1) = n + 1 + i := by omega
      have hnz2 : (env (n + 1 + i)
          (srcFrom env fix (n + 1) (fix src (diagAt env n src)) i)).returncode ≠ 0 := by
        rw [hsh i, heqi] at hnz
        exact hnz
      have hns2 : (env (n + 1 + i)
          (srcFrom env fix (n + 1) (fix src (diagAt env n src)) i)).returncode ≠ 200 := by
        rw [hsh i, heqi] at hns
        exact hns
      obtain ⟨ha, hb, hc⟩ := ih r (n + 1) (fix src (diagAt env n src))
        (hist ++ [diagAt env n src]) (by omega) hpre2 hnz2 hns2
      refine ⟨?_, by omega, by omega⟩
      rw [ha, hsh i, heqi]

/-- C3: for every session and every attempt index `i`, if render attempt `i`
returns a failure with a non-zero exit status other than 200, the session
performs no repair call and no further render attempt: it ends at once as
fatal with that attempt's diagnostic, after exactly `i + 1` render calls and
`i` repair calls. -/
theorem claim_C3_other_error_aborts (env : Nat → String → ProcResult)
    (fix : String → String → String) (k : Nat) (src : String) (i : Nat)
    (hik : i ≤ k)
    (hpre : ∀ j, j < i → (env j (srcFrom env fix 0 src j)).returncode = 200)
    (hnz : (env i (srcFrom env fix 0 src i)).returncode ≠ 0)
    (hns : (env i (srcFrom env fix 0 src i)).returncode ≠ 200) :
    (retry_session env fix k src).result
        = SessionResult.fatalOther (env i (srcFrom env fix 0 src i)).diagnostic ∧
    (retry_session env fix k src).renders = i + 1 ∧
    (retry_session env fix k src).repairs = i := by
  have h := retry_go_other_reach env fix i k 0 src [] hik
      (by intro j hj; simpa using hpre j hj) (by simpa using hnz) (by simpa using hns)
  simpa [retry_session] using h

/-- Witness for C3: all attempts exit with code 1 and the session stops
after the very first render, with zero repairs. -/
theorem claim_C3_witness :
    (retry_session envOtherFail fixKeep 2 "@startuml").result
        = SessionResult.fatalOther "java not found" ∧
    (retry_session envOtherFail fixKeep 2 "@startuml").renders = 1 ∧
    (retry_session envOtherFail fixKeep 2 "@startuml").repairs = 0 := by
  have h := claim_C3_other_error_aborts envOtherFail fixKeep 2 "@startuml" 0
      (by omega) (fun j hj => absurd hj (by omega)) (by decide) (by decide)
  exact ⟨h.1.trans (by decide), h.2.1, h.2.2⟩

/-- C8: if the first render attempt fails with exit status 200, the repair
call returns a corrected source, and the second render attempt on that
corrected source succeeds, the session ends `Succeeded` with the corrected
source and the image path, using exactly 2 render calls and 1 repair call. -/
theorem claim_C8_success_after_one_repair (env : Nat → String → ProcResult)
    (fix : String → String → String) (src : String)
    (h0 : (env 0 src).returncode = 200)
    (h1 : (env 1 (fix src (diagAt env 0 src))).returncode = 0) :
    process_csv_and_generate env fix src =
      { result := SessionResult.succeeded (fix src (diagAt env 0 src))
                    ((env 1 (fix src (diagAt env 0 src))).imagePath)
        renders := 2, repairs := 1
        history := [diagAt env 0 src] } := by
  show retry_go env fix (1 + 1) 0 src [] = _
  rw [retry_go_step env fix 1 0 src [] h0,
      retry_go_ok env fix 1 1 (fix src (diagAt env 0 src)) ([] ++ [diagAt env 0 src]) h1]
  simp

/-- Witness for C8: first attempt fails with exit status 200 and diagnostic
"missing @enduml", the repair returns a corrected source and the second
attempt succeeds. -/
theorem claim_C8_witness :
    process_csv_and_generate envFirstInvalidThenOk fixToCorrected "@startuml\nbroken" =
      { result := SessionResult.succeeded "@startuml\nA -> B\n@enduml"
                    "/static/e2e_test_diagram.png"
        renders := 2, repairs := 1
        history := ["Invalid PlantUML syntax. missing @enduml"] } := by
  have h := claim_C8_success_after_one_repair envFirstInvalidThenOk fixToCorrected
      "@startuml\nbroken" rfl rfl
  exact h.trans (by decide)

/-- C5: the repair adapter is total toward the retry controller: whenever
the external generative call fails, or returns output that is empty after
trimming, the adapter returns the minimal always-valid fallback diagram
instead of raising, so the controller receives a diagram source and never
an error from this adapter. -/
theorem claim_C5_repair_adapter_total (agent : String → String → AgentReply)
    (invalidSource diagnostic : String)
    (h : agent invalidSource diagnostic = AgentReply.failed ∨
         ∃ t, agent invalidSource diagnostic = AgentReply.ok t ∧ t.trim = "") :
    fix_invalid_plantuml_code agent invalidSource diagnostic = fallbackDiagram ∧
    plantumlWellFormed fallbackDiagram = true := by
  refine ⟨?_, by decide⟩
  rcases h with h | ⟨t, ht, htr⟩
  · simp [fix_invalid_plantuml_code, h]
  · simp [fix_invalid_plantuml_code, ht, htr]

/-- Witness for C5: a generative call that always fails makes the adapter
return the fallback diagram. -/
theorem claim_C5_witness :
    fix_invalid_plantuml_code agentDown "@startuml\nbroken" "syntax error" = fallbackDiagram ∧
    plantumlWellFormed fallbackDiagram = true :=
  claim_C5_repair_adapter_total agentDown "@startuml\nbroken" "syntax error" (Or.inl rfl)

/-- C6: the preservation step keeps every id of the original list (the
result's ids are a superset of the original ids), keeps every record
already in the transformed list unchanged and in its order (the transformed
list is the unchanged front of the result), and appends exactly the missing
original records verbatim at the end; on ids {A,B,C} against {B,C,D} the
result has ids B, C, D, A with A appended last. -/
theorem claim_C6_preserve_superset :
    (∀ original transformed : List Record,
        ids original ⊆ ids (preserve original transformed) ∧
        (preserve original transformed).take transformed.length = transformed ∧
        (preserve original transformed).drop transformed.length
          = original.filter (fun tc => !(transformed.any (fun r => r.id == tc.id)))) ∧
    ids (preserve origEx transEx) = ["B", "C", "D", "A"] := by
  refine ⟨fun original transformed => ⟨?_, ?_, ?_⟩, by decide⟩
  · intro x hx
    simp only [ids, List.mem_map] at hx ⊢
    obtain ⟨r, hr, rfl⟩ := hx
    by_cases hmem : transformed.any (fun s => s.id == r.id)
    · simp only [List.any_eq_true, beq_iff_eq] at hmem
      obtain ⟨s, hs, hse⟩ := hmem
      exact ⟨s, by simp [preserve, hs], hse⟩
    · refine ⟨r, ?_, rfl⟩
      simp only [preserve, List.mem_append, List.mem_filter]
      exact Or.inr ⟨hr, by simp [hmem]⟩
  · simp [preserve, List.take_left]
  · simp [preserve, List.drop_left]

/-- Witness for C6 at the scenario lists: id A survives and the transformed
front is untouched. -/
theorem claim_C6_witness :
    "A" ∈ ids (preserve origEx transEx) ∧
    (preserve origEx transEx).take transEx.length = transEx :=
  ⟨(claim_C6_preserve_superset.1 origEx transEx).1 (by decide),
   (claim_C6_preserve_superset.1 origEx transEx).2.1⟩

/-- C7: the preservation step is idempotent: a second application finds no
missing ids and returns its input unchanged. -/
theorem claim_C7_preserve_idempotent (original transformed : List Record) :
    preserve original (preserve original transformed) = preserve original transformed := by
  have hnil : original.filter
      (fun tc => !((preserve original transformed).any (fun r => r.id == tc.id))) = [] := by
    rw [List.filter_eq_nil_iff]
    intro a ha
    have hmem : (preserve original transformed).any (fun r => r.id == a.id) = true := by
      by_cases h : transformed.any (fun r => r.id == a.id)
      · simp only [preserve, List.any_append]
        simp [h]
      · have hm : a ∈ preserve original transformed := by
          simp only [preserve, List.mem_append, List.mem_filter]
          exact Or.inr ⟨ha, by simp [h]⟩
        simp only [List.any_eq_true]
        exact ⟨a, hm, by simp⟩
    simp [hmem]
  show preserve original transformed ++ _ = preserve original transformed
  rw [hnil, List.append_nil]

/-- C9: with a null API key, `generateDiagram` and `chatWithPlantUML` throw
the fixed API-key error before any network request is issued (the outcome
does not depend on the network at all), while `uploadFile` imposes no
API-key precondition and can complete successfully with no key set. -/
theorem claim_C9_api_key_guard :
    (∀ (testCases : String) (fetch : String → HttpResponse),
        generateDiagram none testCases fetch = Except.error apiKeyRequiredMsg) ∧
    (∀ (code message : String) (fetch : String → HttpResponse),
        chatWithPlantUML none code message fetch = Except.error apiKeyRequiredMsg) ∧
    (∀ fileType : String, ∃ (fetch : String → HttpResponse) (response : String),
        uploadFile none fileType fetch = Except.ok response) := by
  refine ⟨fun tcs fetch => ?_, fun c m fetch => ?_, fun ft => ?_⟩
  · simp [generateDiagram, apiKeyMissing]
  · simp [chatWithPlantUML, apiKeyMissing]
  · exact ⟨fun _ => { ok := true, status := 200, detail := none, body := "parsed" },
      "parsed", by simp [uploadFile, handleResponse]⟩

/-- C10: the reducer's `UPDATE_TEST_CASE` action leaves every other state
field unchanged, keeps the number of test cases, leaves every test case
whose id differs from the payload id untouched in place, merges the updates
into the test case whose id matches, and leaves the list element-wise
unchanged when no test case has the payload id. -/
theorem claim_C10_update_test_case_frame (s : AppState) (pid : String) (u : JsObject) :
    (appReducer s (Action.updateTestCase pid u)).currentStep = s.currentStep ∧
    (appReducer s (Action.updateTestCase pid u)).apiKey = s.apiKey ∧
    (appReducer s (Action.updateTestCase pid u)).fileType = s.fileType ∧
    (appReducer s (Action.updateTestCase pid u)).uploadedFile = s.uploadedFile ∧
    (appReducer s (Action.updateTestCase pid u)).cmdbItems = s.cmdbItems ∧
    (appReducer s (Action.updateTestCase pid u)).plantUMLCode = s.plantUMLCode ∧
    (appReducer s (Action.updateTestCase pid u)).plantUMLImage = s.plantUMLImage ∧
    (appReducer s (Action.updateTestCase pid u)).chatHistory = s.chatHistory ∧
    (appReducer s (Action.updateTestCase pid u)).loading = s.loading ∧
    (appReducer s (Action.updateTestCase pid u)).error = s.error ∧
    (appReducer s (Action.updateTestCase pid u)).testCases.length = s.testCases.length ∧
    (∀ (i : Nat) (tc : JsObject), s.testCases[i]? = some tc → tcId tc ≠ some pid →
        (appReducer s (Action.updateTestCase pid u)).testCases[i]? = some tc) ∧
    (∀ (i : Nat) (tc : JsObject), s.testCases[i]? = some tc → tcId tc = some pid →
        (appReducer s (Action.updateTestCase pid u)).testCases[i]? = some (objMerge tc u)) ∧
    ((∀ tc ∈ s.testCases, tcId tc ≠ some pid) →
        (appReducer s (Action.updateTestCase pid u)).testCases = s.testCases) := by
  refine ⟨rfl, rfl, rfl, rfl, rfl, rfl, rfl, rfl, rfl, rfl, ?_, ?_, ?_, ?_⟩
  · simp [appReducer]
  · intro i tc hi hne
    simp [appReducer, List.getElem?_map, hi, hne]
  · intro i tc hi heq
    simp [appReducer, List.getElem?_map, hi, heq]
  · intro h
    show s.testCases.map _ = s.testCases
    have : ∀ l : List JsObject, (∀ tc ∈ l, tcId tc ≠ some pid) →
        l.map (fun tc => if tcId tc = some pid then objMerge tc u else tc) = l := by
      intro l
      induction l with
      | nil => intro _; rfl
      | cons a t ih =>
        intro hl
        simp only [List.map_cons, List.cons.injEq]
        exact ⟨if_neg (hl a (by simp)), ih (fun x hx => hl x (by simp [hx]))⟩
    exact this s.testCases h

/-- Witness for C10: updating TC1 in the example state changes only TC1,
leaves TC2 and the current step alone. -/
theorem claim_C10_witness :
    (appReducer sEx (Action.updateTestCase "TC1" [("name", "signin")])).currentStep
        = sEx.currentStep ∧
    (appReducer sEx (Action.updateTestCase "TC1" [("name", "signin")])).testCases[1]?
        = some tc2 ∧
    (appReducer sEx (Action.updateTestCase "TC1" [("name", "signin")])).testCases[0]?
        = some (objMerge tc1 [("name", "signin")]) := by
  obtain ⟨h1, -, -, -, -, -, -, -, -, -, -, h12, h13, -⟩ :=
    claim_C10_update_test_case_frame sEx "TC1" [("name", "signin")]
  exact ⟨h1, h12 1 tc2 (by decide) (by decide), h13 0 tc1 (by decide) (by decide)⟩

end PlantUml
